import Mathlib

/-!
Shallow embedding of the `pandas-project-energy` repository: the
clearing-price engine (`price_calculator.py`) and the validator and
cleaner (`data_validation.py`), together with proofs of the behavioural
claims made by the specification.

Modelling conventions:
* a pandas DataFrame of merit-order offers is a `List OfferRow`;
* numeric values (prices, volumes, demands, periods) are modelled as
  arbitrary-precision integers (`Int`).  The source stores them as
  floats, but every property verified below depends only on the linearly
  ordered additive structure, which `Int` and the exact reals share; the
  reference data of the repository's own test consists of integers;
* `df.sort_values(col)` is modelled by insertion sort on the price
  projection (the spec declares tie order immaterial);
* `Series.cumsum` is modelled by `cumsum`, which pairs each row with its
  running total;
* `selection.iloc[0]` on an empty selection raises `IndexError` in
  pandas; the model returns `Except.error CPError.indexError`.
-/

/-- One row of the merit-order DataFrame, restricted to the columns the
clearing-price engine reads: `Date`, `Period`,
`Lowest to Highest Offer Price ($/MWh)` and
`Total Offer Capacity At Specified Offer Price (MW)`. -/
structure OfferRow where
  date : String
  period : Int
  price : Int
  volume : Int
deriving DecidableEq, Repr

/-- The comparison used by `sort_values('Lowest to Highest Offer Price ($/MWh)')`:
ascending order on the price column. -/
def priceLe (a b : OfferRow) : Prop := a.price ≤ b.price

instance : DecidableRel priceLe :=
  fun a b => inferInstanceAs (Decidable (a.price ≤ b.price))

instance : IsTotal OfferRow priceLe := ⟨fun a b => le_total a.price b.price⟩

instance : IsTrans OfferRow priceLe := ⟨fun _ _ _ hab hbc => le_trans hab hbc⟩

/-- Embedding of `df[(df['Date'] == date) & (df['Period'] == period)]`
(price_calculator.py line 25). -/
def filterDatePeriod (df : List OfferRow) (date : String) (period : Int) :
    List OfferRow :=
  df.filter (fun r => r.date == date && r.period == period)

/-- Embedding of `order_df.sort_values('Lowest to Highest Offer Price ($/MWh)')`
(price_calculator.py line 28). -/
def sortByPrice (l : List OfferRow) : List OfferRow :=
  List.insertionSort priceLe l

/-- Embedding of `sorted_df['Cumulative Volume'] = sorted_df[volume_col].cumsum()`
(price_calculator.py line 31): each row paired with the running total of
the volume column, the accumulator seeded with `acc`. -/
def cumsum (acc : Int) : List OfferRow → List (OfferRow × Int)
  | [] => []
  | r :: rs => (r, acc + r.volume) :: cumsum (acc + r.volume) rs

/-- The single failure mode of `calculate_clearing_price`: `.iloc[0]` on
an empty selection raises `IndexError` (pandas: "single positional
indexer is out-of-bounds").  Both the no-matching-rows case and the
demand-exceeds-cumulative-volume case reach line 34 with an empty
selection and raise this very same exception. -/
inductive CPError
  | indexError
deriving DecidableEq, Repr

instance {ε α : Type} [DecidableEq ε] [DecidableEq α] : DecidableEq (Except ε α) :=
  fun x y =>
    match x, y with
    | Except.ok a, Except.ok b =>
      if h : a = b then isTrue (by subst h; rfl)
      else isFalse (fun hc => h (by cases hc; rfl))
    | Except.error a, Except.error b =>
      if h : a = b then isTrue (by subst h; rfl)
      else isFalse (fun hc => h (by cases hc; rfl))
    | Except.ok _, Except.error _ => isFalse (fun hc => by cases hc)
    | Except.error _, Except.ok _ => isFalse (fun hc => by cases hc)

/-- Embedding of `calculate_clearing_price(df, date, period, demand)`
(price_calculator.py lines 25-36): filter to the (date, period) rows,
sort ascending by price, take the running cumulative volume, keep the
rows whose cumulative volume is at least the demand and return the price
of the first of them; an empty selection raises `IndexError`. -/
def calculate_clearing_price (df : List OfferRow) (date : String)
    (period : Int) (demand : Int) : Except CPError Int :=
  match ((cumsum 0 (sortByPrice (filterDatePeriod df date period))).filter
      (fun x => decide (demand ≤ x.2))).head? with
  | some row => Except.ok row.1.price
  | none => Except.error CPError.indexError

/-- The test fixture of `test_calculate_clearing_price`
(price_calculator.py lines 82-87). -/
def testData : List OfferRow :=
  [⟨"2023-01-01", 1, -100, 100⟩,
   ⟨"2023-01-01", 1, 0, 200⟩,
   ⟨"2023-01-01", 1, 50, 300⟩,
   ⟨"2023-01-01", 1, 100, 400⟩,
   ⟨"2023-01-01", 1, 200, 500⟩]

example : calculate_clearing_price testData "2023-01-01" 1 50 = Except.ok (-100) := by decide
example : calculate_clearing_price testData "2023-01-01" 1 250 = Except.ok 0 := by decide
example : calculate_clearing_price testData "2023-01-01" 1 1500 = Except.ok 200 := by decide
example : calculate_clearing_price testData "2023-01-01" 1 1501 =
    Except.error CPError.indexError := by decide

/-! ### The validator (`data_validation.py`) -/

/-- Does the character list `needle` occur at the start of `hay`? -/
def startsWithChars : List Char → List Char → Bool
  | [], _ => true
  | _ :: _, [] => false
  | a :: as, b :: bs => a == b && startsWithChars as bs

/-- Python's `needle in hay` on strings, over character lists: does
`needle` occur contiguously anywhere in `hay`? -/
def containsSub (hay needle : List Char) : Bool :=
  match hay with
  | [] => needle.isEmpty
  | _ :: t => startsWithChars needle hay || containsSub t needle

/-- Python's `needle in col.lower()` as used in validate_dataset
lines 124-133. -/
def hasSubLower (col : String) (needle : String) : Bool :=
  containsSub (col.data.map Char.toLower) needle.data

/-- The five keys of `ENERGY_MARKET_BOUNDS` (data_validation.py lines 6-32). -/
inductive BoundType
  | price
  | volume
  | period
  | demand
  | tcl
deriving DecidableEq, Repr

instance : BEq BoundType := ⟨fun a b => decide (a = b)⟩

/-- An inclusive `{min, max}` entry of the bounds table (the
`description` string plays no behavioural role and is omitted). -/
structure BoundsEntry where
  min : Int
  max : Int
deriving DecidableEq, Repr

/-- The `min`/`max` pairs of `ENERGY_MARKET_BOUNDS`
(data_validation.py lines 6-32). -/
def energyBound : BoundType → BoundsEntry
  | .price => ⟨-5000, 5000⟩
  | .volume => ⟨0, 2000⟩
  | .period => ⟨1, 48⟩
  | .demand => ⟨4000, 8000⟩
  | .tcl => ⟨0, 100⟩

/-- The dictionary `ENERGY_MARKET_BOUNDS` as the association list the validator's
`domain_bounds` dictionary is (data_validation.py line 70). -/
def ENERGY_MARKET_BOUNDS : List (BoundType × BoundsEntry) :=
  [(.price, energyBound .price), (.volume, energyBound .volume),
   (.period, energyBound .period), (.demand, energyBound .demand),
   (.tcl, energyBound .tcl)]

/-- The `bound_type` classification chain of validate_dataset
lines 122-133: case-insensitive substring match on the column name, in
the priority order price, volume/capacity, period, demand, tcl. -/
def boundTypeFor (col : String) : Option BoundType :=
  if hasSubLower col "price" then some .price
  else if hasSubLower col "volume" || hasSubLower col "capacity" then some .volume
  else if hasSubLower col "period" then some .period
  else if hasSubLower col "demand" then some .demand
  else if hasSubLower col "tcl" then some .tcl
  else none

example : boundTypeFor "Total Offer Capacity At Specified Offer Price (MW)" =
    some BoundType.price := by decide
example : boundTypeFor "DEMAND (MW)" = some BoundType.demand := by decide
example : boundTypeFor "TCL (MW)" = some BoundType.tcl := by decide
example : boundTypeFor "Period" = some BoundType.period := by decide
example : boundTypeFor "INFORMATION TYPE" = none := by decide

/-- One cell of a pandas DataFrame as the validator sees it: a null
(`NaN`/`NaT`), a number, or a string. -/
inductive Cell
  | null
  | num (q : Int)
  | str (s : String)
deriving DecidableEq, Repr

/-- A pandas DataFrame: named columns and a list of rows, each row
holding one cell per column. -/
structure DataFrame where
  cols : List String
  rows : List (List Cell)
deriving DecidableEq, Repr

/-- Column access `df[c]`: the column named `c`, read positionally from each row; an
absent column reads as empty (the source always guards this access with
`c in df.columns`). -/
def DataFrame.colVals (df : DataFrame) (c : String) : List Cell :=
  match df.cols.findIdx? (fun s => s == c) with
  | some i => df.rows.map (fun r => r.getD i Cell.null)
  | none => []

/-- A calendar date at day granularity, as produced by
`pd.to_datetime(...).dt.normalize()`. -/
structure CalDate where
  year : Int
  month : Nat
  day : Nat
deriving DecidableEq, Repr

/-- Day-granularity comparison key: lexicographic on (year, month, day),
encoded as an integer. -/
def dateIdx (d : CalDate) : Int :=
  d.year * 10000 + (d.month : Int) * 100 + (d.day : Int)

/-- Parse a decimal digit string. -/
def digitsToNat (cs : List Char) : Option Nat :=
  if cs.isEmpty then none
  else
    cs.foldl
      (fun acc c =>
        match acc with
        | some n => if c.isDigit then some (n * 10 + (c.toNat - 48)) else none
        | none => none)
      (some 0)

/-- Split a character list on a separator character; mirrors
`String.splitOn` for a one-character separator. -/
def splitOnChar (sep : Char) : List Char → List (List Char)
  | [] => [[]]
  | c :: cs =>
    let rest := splitOnChar sep cs
    if c == sep then [] :: rest
    else
      match rest with
      | [] => [[c]]
      | h :: t => (c :: h) :: t

/-- Modelled library behaviour: `pd.to_datetime` on an ISO `YYYY-MM-DD`
string — the format of the repository's date columns.  Strings in any
other shape, months outside 1..12 and days outside 1..31 fail to parse
(pandas additionally rejects days invalid for the given month; no claim
depends on that refinement). -/
def parseDateString (s : String) : Option CalDate :=
  match splitOnChar (Char.ofNat 45) s.data with
  | [ys, ms, ds] =>
    match digitsToNat ys, digitsToNat ms, digitsToNat ds with
    | some y, some m, some d =>
      if 1 ≤ m ∧ m ≤ 12 ∧ 1 ≤ d ∧ d ≤ 31 then some ⟨(y : Int), m, d⟩ else none
    | _, _, _ => none
  | _ => none

example : parseDateString "2023-01-01" = some ⟨2023, 1, 1⟩ := by decide
example : parseDateString "2023-01-40" = none := by decide
example : parseDateString "40 Jan 2023" = none := by decide

/-- Embedding of `pd.to_datetime(df[col], errors='coerce')` on one cell: strings are
parsed, everything else coerces to `NaT` (`none`). -/
def parseCellDate : Cell → Option CalDate
  | .str s => parseDateString s
  | _ => none

/-- Is the cell a null? (`df.isnull()` on one cell.) -/
def cellIsNull : Cell → Bool
  | .null => true
  | _ => false

/-- Nulls in column `c` (`df.isnull().sum()[c]`, lines 80-82). -/
def nullCount (df : DataFrame) (c : String) : Nat :=
  ((df.colVals c).filter cellIsNull).length

/-- The `missing_values` entries: columns with at least one null
(validate_dataset lines 80-83). -/
def missingValuesReport (df : DataFrame) : List (String × Nat) :=
  (df.cols.map (fun c => (c, nullCount df c))).filter (fun p => decide (0 < p.2))

/-- The `total_violations` count for a date column (validate_dataset lines 94-105):
cells failing to parse plus parsed cells outside the inclusive
`[sd, ed]` range. -/
def dateViolationCount (df : DataFrame) (c : String) (sd ed : CalDate) : Nat :=
  let parsed := (df.colVals c).map parseCellDate
  let invalidCount := (parsed.filter (fun o => o.isNone)).length
  let oorCount :=
    (parsed.filter (fun o =>
      match o with
      | some d => decide (dateIdx d < dateIdx sd) || decide (dateIdx ed < dateIdx d)
      | none => false)).length
  invalidCount + oorCount

/-- Embedding of `pd.api.types.is_numeric_dtype(df[col])`: every cell of the column
is a number or a null (an all-numeric column with NaNs is still a float
column in pandas). -/
def isNumericCol (df : DataFrame) (c : String) : Bool :=
  (df.colVals c).all (fun x =>
    match x with
    | .num _ => true
    | .null => true
    | .str _ => false)

/-- Embedding of `len(df[(df[col] < min) | (df[col] > max)][col])`
(validate_dataset lines 137-144): numeric cells outside the inclusive
bounds; nulls never compare true. -/
def domainViolationCount (df : DataFrame) (c : String) (be : BoundsEntry) : Nat :=
  ((df.colVals c).filter (fun x =>
    match x with
    | .num q => decide (q < be.min) || decide (be.max < q)
    | _ => false)).length

/-- Embedding of `df.duplicated().sum()` (line 161): rows equal to an earlier row. -/
def countDups (rows : List (List Cell)) : Nat :=
  (rows.foldl
    (fun acc r => if acc.1.contains r then (acc.1, acc.2 + 1) else (r :: acc.1, acc.2))
    (([] : List (List Cell)), 0)).2

/-- A violation report entry for one column: the violation count and the
`violation_percentage` float `(count / len(df)) * 100` (the further
evidence fields — offending rows, bounds, summary statistics — play no
role in any claim and are omitted). -/
structure ViolationEntry where
  col : String
  count : Nat
  percentage : Rat
deriving DecidableEq, Repr

/-- The `validation_results` dictionary (validate_dataset lines 59-67),
restricted to the behaviourally relevant fields. -/
structure ValidationResults where
  missing_columns : List String
  missing_values : List (String × Nat)
  data_types : List (String × String)
  date_violations : List ViolationEntry
  domain_violations : List ViolationEntry
  duplicates : Nat
  issues_found : Bool
deriving DecidableEq, Repr

/-- The `date_violations` entries (validate_dataset lines 88-108): for
each date column present in the table whose violation count is positive,
the count and the percentage `(count / len(df)) * 100`. -/
def dateViolationsReport (df : DataFrame) (date_cols : List String)
    (sd ed : CalDate) : List ViolationEntry :=
  (date_cols.filter (fun c => df.cols.contains c)).filterMap (fun c =>
    if 0 < dateViolationCount df c sd ed then
      some ⟨c, dateViolationCount df c sd ed,
        ((dateViolationCount df c sd ed : Rat) / (df.rows.length : Rat)) * 100⟩
    else none)

/-- The `domain_violations` entries (validate_dataset lines 121-158):
for each numeric-typed column present in the table whose inferred bound
kind is in the bounds dictionary and whose violation count is positive,
the count and the percentage `(count / len(df)) * 100`. -/
def domainViolationsReport (df : DataFrame) (numeric_cols : List String)
    (domain_bounds : List (BoundType × BoundsEntry)) : List ViolationEntry :=
  ((numeric_cols.filter (fun c => df.cols.contains c)).filter
      (fun c => isNumericCol df c)).filterMap (fun c =>
    match boundTypeFor c with
    | some bt =>
      match domain_bounds.lookup bt with
      | some be =>
        if 0 < domainViolationCount df c be then
          some ⟨c, domainViolationCount df c be,
            ((domainViolationCount df c be : Rat) / (df.rows.length : Rat)) * 100⟩
        else none
      | none => none
    | none => none)

/-- Embedding of `validate_dataset(df, expected_cols, date_cols, numeric_cols,
bounds_config, date_range)` (data_validation.py lines 34-166).

Faithful points of the translation:
* empty `expected_cols` / `date_cols` / `numeric_cols` lists behave like
  absent arguments, exactly as Python truthiness makes them;
* `bounds_config=None` (here `none`) selects `ENERGY_MARKET_BOUNDS`,
  while a present empty dictionary disables every domain check;
* parsing failure of the `date_range` endpoints (line 87 runs outside
  any try block) aborts the whole call: modelled by returning `none`;
* the domain-violation branch (lines 142-158) records the violation but
  does NOT set `issues_found` — the translation reproduces that;
* the per-column `try/except` of lines 90-111 cannot fire in the model
  (element-wise parsing is total), so no `data_types` entry is ever
  produced for a date column. -/
def validate_dataset (df : DataFrame) (expected_cols : List String)
    (date_cols : List String) (numeric_cols : List String)
    (bounds_config : Option (List (BoundType × BoundsEntry)))
    (date_range : Option (String × String)) : Option ValidationResults :=
  let domain_bounds := bounds_config.getD ENERGY_MARKET_BOUNDS
  let missing_columns :=
    (expected_cols.filter (fun c => !(df.cols.contains c))).eraseDups
  let i1 := !missing_columns.isEmpty
  let missing_values := missingValuesReport df
  let i2 := i1 || !missing_values.isEmpty
  let dateStep : Option (List ViolationEntry) :=
    match date_cols, date_range with
    | _ :: _, some (s0, s1) =>
      match parseDateString s0, parseDateString s1 with
      | some sd, some ed => some (dateViolationsReport df date_cols sd ed)
      | _, _ => none
    | _, _ => some []
  match dateStep with
  | none => none
  | some date_violations =>
    let i3 := i2 || !date_violations.isEmpty
    let data_types :=
      ((numeric_cols.filter (fun c => df.cols.contains c)).filter
          (fun c => !(isNumericCol df c))).map
        (fun c => (c, "Non-numeric data"))
    let i4 := i3 || !data_types.isEmpty
    let domain_violations := domainViolationsReport df numeric_cols domain_bounds
    let dups := countDups df.rows
    let i5 := i4 || decide (0 < dups)
    some
      { missing_columns := missing_columns
        missing_values := missing_values
        data_types := data_types
        date_violations := date_violations
        domain_violations := domain_violations
        duplicates := dups
        issues_found := i5 }

/-! ### The cleaner (`clean_market_data`, data_validation.py lines 182-260) -/

/-- The date cell of a market table row: either the raw string the CSV
delivered or the `Timestamp` that `pd.to_datetime` turned it into. -/
inductive DateVal
  | raw (s : String)
  | ts (d : CalDate)
deriving DecidableEq, Repr

/-- Embedding of `pd.to_datetime(x, format='mixed')` on one date cell: a raw string
is parsed, an already-converted timestamp passes through. -/
def parseMixed : DateVal → Option CalDate
  | .raw s => parseDateString s
  | .ts d => some d

/-- The `dataset_type` argument (`'merit'` or `'usep'`). -/
inductive DatasetType
  | merit
  | usep
deriving DecidableEq, Repr

/-- One row of a market table as the cleaner reads it: the date column,
the period column, and the two numeric columns the kind-specific step
filters (for `merit` the offer price and offer volume; for `usep` the
USEP price and the demand).  `extra` carries every other cell of the
row, untouched by cleaning. -/
structure MarketRow where
  date : DateVal
  period : Int
  price : Int
  vol : Int
  extra : List Cell
deriving DecidableEq, Repr

/-- The helper `is_valid_date` (lines 204-212): parse with the mixed
format and check the day of month lies in 1..31; any parse failure is
`False`. -/
def is_valid_date (dv : DateVal) : Bool :=
  match parseMixed dv with
  | some d => decide (1 ≤ d.day) && decide (d.day ≤ 31)
  | none => false

/-- Line 221: `pd.to_datetime(cleaned_df[date_col], format='mixed')`
applied to one row that survived the valid-date filter. -/
def convertDate (r : MarketRow) : MarketRow :=
  match parseMixed r.date with
  | some d => { r with date := .ts d }
  | none => r

/-- The filter `year == 2023 and month == 1` (lines 222-226). -/
def inJan2023 (dv : DateVal) : Bool :=
  match dv with
  | .ts d => decide (d.year = 2023) && decide (d.month = 1)
  | .raw _ => false

/-- Embedding of `clean_market_data(df, dataset_type)` (lines 182-260): drop rows
whose date does not parse or has a day outside 1..31, convert the date
column to timestamps, keep only January 2023, keep periods in [1, 48],
then apply the kind-specific price/volume (merit) or price/demand (usep)
bounds from `ENERGY_MARKET_BOUNDS`.  The `except` branch of lines
227-229 is unreachable in the model: every row reaching line 221 already
parsed inside `is_valid_date`. -/
def clean_market_data (df : List MarketRow) (dataset_type : DatasetType) :
    List MarketRow :=
  let c1 := df.filter (fun r => is_valid_date r.date)
  let c2 := c1.map convertDate
  let c3 := c2.filter (fun r => inJan2023 r.date)
  let c4 := c3.filter (fun r => decide (1 ≤ r.period) && decide (r.period ≤ 48))
  match dataset_type with
  | .merit =>
    c4.filter (fun r =>
      decide ((energyBound .price).min ≤ r.price) &&
      decide (r.price ≤ (energyBound .price).max) &&
      decide ((energyBound .volume).min ≤ r.vol) &&
      decide (r.vol ≤ (energyBound .volume).max))
  | .usep =>
    c4.filter (fun r =>
      decide ((energyBound .price).min ≤ r.price) &&
      decide (r.price ≤ (energyBound .price).max) &&
      decide ((energyBound .demand).min ≤ r.vol) &&
      decide (r.vol ≤ (energyBound .demand).max))

example :
    clean_market_data
      [⟨.raw "2023-01-05", 3, 100, 50, []⟩,
       ⟨.raw "40 Jan 2023", 3, 100, 50, []⟩,
       ⟨.raw "2023-02-05", 3, 100, 50, []⟩,
       ⟨.raw "2023-01-05", 49, 100, 50, []⟩,
       ⟨.raw "2023-01-05", 3, 100, -1, []⟩] DatasetType.merit =
    [⟨.ts ⟨2023, 1, 5⟩, 3, 100, 50, []⟩] := by decide

/-! ### Supporting lemmas -/

/-- The map `cumsum` decorates but never reorders: the row components are the
input list. -/
theorem cumsum_map_fst (acc : Int) (l : List OfferRow) :
    (cumsum acc l).map Prod.fst = l := by
  induction l generalizing acc with
  | nil => rfl
  | cons r rs ih => simp [cumsum, ih]

/-- If a decomposition `l1 ++ x :: l2` has every element of `l1` failing
the filter and `x` passing it, then `x` is the head of the filtered
list. -/
theorem head_filter_of_decomp {α : Type} (p : α → Bool) (l1 : List α) (x : α)
    (l2 : List α) (hl1 : ∀ a ∈ l1, p a = false) (hx : p x = true) :
    ((l1 ++ x :: l2).filter p).head? = some x := by
  rw [List.filter_append,
    List.filter_eq_nil_iff.mpr (fun a ha hp => by rw [hl1 a ha] at hp; cases hp),
    List.filter_cons_of_pos hx]
  rfl

/-- Heads of two filters of one price-sorted list: whenever the second
predicate implies the first, the first head's price is at most the
second head's. -/
theorem head_filter_price_mono {cl : List (OfferRow × Int)}
    (hs : cl.Pairwise (fun u v => u.1.price ≤ v.1.price))
    {p q : OfferRow × Int → Bool} (himp : ∀ u, q u = true → p u = true)
    {a b : OfferRow × Int} (ha : (cl.filter p).head? = some a)
    (hb : (cl.filter q).head? = some b) : a.1.price ≤ b.1.price := by
  induction cl with
  | nil => simp at ha
  | cons c t ih =>
    rcases List.pairwise_cons.mp hs with ⟨hhead, htail⟩
    by_cases hp : p c = true
    · rw [List.filter_cons_of_pos hp, List.head?_cons, Option.some.injEq] at ha
      subst ha
      have hbmem : b ∈ c :: t := by
        cases hfq : (c :: t).filter q with
        | nil => rw [hfq] at hb; cases hb
        | cons y ys =>
          rw [hfq, List.head?_cons, Option.some.injEq] at hb
          have hy : y ∈ List.filter q (c :: t) := by
            rw [hfq]; exact List.mem_cons_self y ys
          rw [← hb]
          exact (List.mem_filter.mp hy).1
      rcases List.mem_cons.mp hbmem with hbc | hbt
      · subst hbc; exact le_refl _
      · exact hhead b hbt
    · have hq : q c = true → False := fun hqc => hp (himp c hqc)
      rw [List.filter_cons_of_neg (by
        cases hqc : q c with
        | true => exact absurd hqc hq
        | false => simp)] at hb
      rw [List.filter_cons_of_neg (by simp [Bool.not_eq_true] at hp ⊢; exact hp)] at ha
      exact ih htail ha hb

/-- The cumulative-volume list of the engine is sorted on the price of
its row components. -/
theorem cumsum_pairwise_price (df : List OfferRow) (date : String) (period : Int) :
    (cumsum 0 (sortByPrice (filterDatePeriod df date period))).Pairwise
      (fun u v => u.1.price ≤ v.1.price) := by
  have hsorted : List.Sorted priceLe (sortByPrice (filterDatePeriod df date period)) :=
    List.sorted_insertionSort priceLe _
  have hmap :
      ((cumsum 0 (sortByPrice (filterDatePeriod df date period))).map Prod.fst).Pairwise
        priceLe := by
    rw [cumsum_map_fst]; exact hsorted
  have hpw := List.pairwise_map.mp hmap
  exact hpw.imp (fun h => h)

/-! ### Claim theorems for the clearing-price engine -/

/-- Claim C1: for every merit-order table, date, period and demand,
`calculate_clearing_price` filters to the (date, period) rows, sorts
ascending by price, forms the running cumulative volume and returns the
price of the first row in sorted order whose cumulative volume is at
least the demand; on the reference fixture (prices [-100, 0, 50, 100,
200], volumes [100, 200, 300, 400, 500], 2023-01-01 period 1) it returns
-100 for demand 50, 0 for demand 250 and 200 for demand 1500. -/
theorem clearing_price_scans_sorted_curve :
    (∀ (df : List OfferRow) (date : String) (period demand : Int)
        (l1 : List (OfferRow × Int)) (x : OfferRow × Int) (l2 : List (OfferRow × Int)),
        cumsum 0 (sortByPrice (filterDatePeriod df date period)) = l1 ++ x :: l2 →
        (∀ a ∈ l1, a.2 < demand) → demand ≤ x.2 →
        calculate_clearing_price df date period demand = Except.ok x.1.price) ∧
    calculate_clearing_price testData "2023-01-01" 1 50 = Except.ok (-100) ∧
    calculate_clearing_price testData "2023-01-01" 1 250 = Except.ok 0 ∧
    calculate_clearing_price testData "2023-01-01" 1 1500 = Except.ok 200 := by
  refine ⟨?_, by decide, by decide, by decide⟩
  intro df date period demand l1 x l2 hdec hlt hx
  unfold calculate_clearing_price
  rw [hdec, head_filter_of_decomp _ l1 x l2
    (fun a ha => by simpa using not_le.mpr (hlt a ha)) (by simpa using hx)]

/-- Witness for C1: the general first-crossing statement applied to the
reference fixture at demand 50, with the explicit decomposition of the
cumulative curve. -/
theorem clearing_price_scans_sorted_curve_witness :
    calculate_clearing_price testData "2023-01-01" 1 50 = Except.ok (-100) :=
  clearing_price_scans_sorted_curve.1 testData "2023-01-01" 1 50 []
    (⟨"2023-01-01", 1, -100, 100⟩, 100)
    [(⟨"2023-01-01", 1, 0, 200⟩, 300), (⟨"2023-01-01", 1, 50, 300⟩, 600),
     (⟨"2023-01-01", 1, 100, 400⟩, 1000), (⟨"2023-01-01", 1, 200, 500⟩, 1500)]
    (by decide) (by decide) (by decide)

/-- Claim C2: when the (date, period) rows are non-empty but the running
cumulative volume never reaches the demand, `calculate_clearing_price`
fails — the `iloc[0]` lookup on the empty thresholded selection raises
`IndexError`, the failure the specification's taxonomy calls
`OutOfRangeError` — instead of returning any price; in particular demand
1501 on the reference fixture (total volume 1500) fails so. -/
theorem clearing_price_demand_exceeding_supply_fails :
    (∀ (df : List OfferRow) (date : String) (period demand : Int),
        filterDatePeriod df date period ≠ [] →
        (∀ x ∈ cumsum 0 (sortByPrice (filterDatePeriod df date period)), x.2 < demand) →
        calculate_clearing_price df date period demand =
          Except.error CPError.indexError) ∧
    calculate_clearing_price testData "2023-01-01" 1 1501 =
      Except.error CPError.indexError := by
  refine ⟨?_, by decide⟩
  intro df date period demand _ hall
  unfold calculate_clearing_price
  rw [List.filter_eq_nil_iff.mpr
    (fun a ha hp => absurd (of_decide_eq_true hp) (not_le.mpr (hall a ha)))]
  rfl

/-- Witness for C2: the reference fixture, demand 1501; every cumulative
volume (at most 1500) is below the demand and the call fails. -/
theorem clearing_price_demand_exceeding_supply_fails_witness :
    calculate_clearing_price testData "2023-01-01" 1 1501 =
      Except.error CPError.indexError :=
  clearing_price_demand_exceeding_supply_fails.1 testData "2023-01-01" 1 1501
    (by decide) (by decide)

/-- Claim C3 (amended): when no row of the table matches (date, period),
`calculate_clearing_price` fails — with the very same `IndexError` from
the empty `iloc[0]` lookup that the demand-exceeds-supply case raises,
so the two failure conditions are not distinguishable by the error the
caller receives. -/
theorem clearing_price_no_rows_fails :
    ∀ (df : List OfferRow) (date : String) (period demand : Int),
      filterDatePeriod df date period = [] →
      calculate_clearing_price df date period demand =
        Except.error CPError.indexError := by
  intro df date period demand h
  unfold calculate_clearing_price
  rw [h]
  rfl

/-- Witness for C3: a date absent from the reference fixture; the
selection is empty and the call fails. -/
theorem clearing_price_no_rows_fails_witness :
    calculate_clearing_price testData "2023-01-02" 1 100 =
      Except.error CPError.indexError :=
  clearing_price_no_rows_fails testData "2023-01-02" 1 100 (by decide)

/-- Counterexample for C3 as stated: the no-matching-rows failure and
the demand-exceeds-supply failure produce the identical error value, so
the NotFound condition is not distinct from the OutOfRange condition in
the code.  The first call has no matching rows; the second has matching
rows (total volume 1500) and demand 1501. -/
theorem clearing_price_errors_indistinguishable_cex :
    calculate_clearing_price testData "2023-01-02" 1 100 =
      Except.error CPError.indexError ∧
    calculate_clearing_price testData "2023-01-01" 1 1501 =
      Except.error CPError.indexError ∧
    filterDatePeriod testData "2023-01-02" 1 = [] ∧
    filterDatePeriod testData "2023-01-01" 1 ≠ [] := by
  refine ⟨by decide, by decide, by decide, by decide⟩

/-- Claim C7: for a fixed table, date and period,
`calculate_clearing_price` is monotonically non-decreasing in the
demand: whenever both calls succeed and the first demand is at most the
second, the first price is at most the second. -/
theorem clearing_price_monotone_in_demand :
    ∀ (df : List OfferRow) (date : String) (period d1 d2 p1 p2 : Int),
      d1 ≤ d2 →
      calculate_clearing_price df date period d1 = Except.ok p1 →
      calculate_clearing_price df date period d2 = Except.ok p2 →
      p1 ≤ p2 := by
  intro df date period d1 d2 p1 p2 h12 h1 h2
  unfold calculate_clearing_price at h1 h2
  cases hh1 : ((cumsum 0 (sortByPrice (filterDatePeriod df date period))).filter
      (fun x => decide (d1 ≤ x.2))).head? with
  | none => rw [hh1] at h1; cases h1
  | some a =>
    rw [hh1] at h1
    cases hh2 : ((cumsum 0 (sortByPrice (filterDatePeriod df date period))).filter
        (fun x => decide (d2 ≤ x.2))).head? with
    | none => rw [hh2] at h2; cases h2
    | some b =>
      rw [hh2] at h2
      have ha : a.1.price = p1 := by cases h1; rfl
      have hb : b.1.price = p2 := by cases h2; rfl
      rw [← ha, ← hb]
      exact head_filter_price_mono (cumsum_pairwise_price df date period)
        (fun u hu => decide_eq_true (le_trans h12 (of_decide_eq_true hu)))
        hh1 hh2

/-- Witness for C7: on the reference fixture, demands 50 and 250 both
succeed and the returned prices -100 and 0 are correctly ordered. -/
theorem clearing_price_monotone_in_demand_witness : (-100 : Int) ≤ 0 :=
  clearing_price_monotone_in_demand testData "2023-01-01" 1 50 250 (-100) 0
    (by decide) (by decide) (by decide)

/-! ### Cumulative-volume lemmas, claims C6 and C8 -/

/-- Total offered volume of a list of rows (`sum of all offer volumes`). -/
def sumVol (l : List OfferRow) : Int := (l.map OfferRow.volume).sum

/-- The highest offered price of a curve: the price of the last row in
ascending price order (the default row is returned only for an empty
curve). -/
def highestPrice (rows : List OfferRow) : Int :=
  ((sortByPrice rows).getLastD ⟨"", 0, 0, 0⟩).price

/-- A list of rows with positive volumes has positive total volume. -/
theorem sumVol_pos : ∀ l : List OfferRow, l ≠ [] → (∀ r ∈ l, 0 < r.volume) →
    0 < sumVol l
  | [], h, _ => absurd rfl h
  | [x], _, hp => by
    have := hp x (List.mem_cons_self x [])
    simpa [sumVol] using this
  | x :: y :: t, _, hp => by
    have ih := sumVol_pos (y :: t) (by simp)
      (fun r hr => hp r (List.mem_cons_of_mem x hr))
    have hx := hp x (List.mem_cons_self x (y :: t))
    simp only [sumVol, List.map_cons, List.sum_cons] at ih ⊢
    linarith

/-- With non-negative volumes, every cumulative value is at least the
starting accumulator. -/
theorem cumsum_le_of_mem : ∀ (acc : Int) (l : List OfferRow),
    (∀ r ∈ l, 0 ≤ r.volume) → ∀ x ∈ cumsum acc l, acc ≤ x.2 := by
  intro acc l
  induction l generalizing acc with
  | nil => intro _ x hx; cases hx
  | cons r rs ih =>
    intro h x hx
    have hv : 0 ≤ r.volume := h r (List.mem_cons_self r rs)
    rcases List.mem_cons.mp hx with hx0 | hxs
    · rw [hx0]; simpa using hv
    · exact le_trans (by linarith)
        (ih (acc + r.volume) (fun s hs => h s (List.mem_cons_of_mem r hs)) x hxs)

/-- With non-negative volumes, the cumulative-volume column is pairwise
non-decreasing. -/
theorem cumsum_mono : ∀ (acc : Int) (l : List OfferRow),
    (∀ r ∈ l, 0 ≤ r.volume) →
    (cumsum acc l).Pairwise (fun a b => a.2 ≤ b.2) := by
  intro acc l
  induction l generalizing acc with
  | nil => intro _; exact List.Pairwise.nil
  | cons r rs ih =>
    intro h
    have htail : ∀ s ∈ rs, 0 ≤ s.volume := fun s hs => h s (List.mem_cons_of_mem r hs)
    exact List.Pairwise.cons
      (fun b hb => cumsum_le_of_mem (acc + r.volume) rs htail b hb)
      (ih (acc + r.volume) htail)

/-- The last cumulative value is the accumulator plus the total volume. -/
theorem cumsum_getLastD : ∀ (acc : Int) (l : List OfferRow) (d : OfferRow × Int),
    l ≠ [] → ((cumsum acc l).getLastD d).2 = acc + sumVol l
  | _, [], _, h => absurd rfl h
  | acc, [x], d, _ => by simp [cumsum, sumVol]
  | acc, x :: y :: t, d, _ => by
    have ih := cumsum_getLastD (acc + x.volume) (y :: t) (x, acc + x.volume) (by simp)
    simp only [cumsum, List.getLastD_cons] at ih ⊢
    rw [ih]
    simp only [sumVol, List.map_cons, List.sum_cons]
    ring

/-- A sorted curve is empty only when the filtered selection was. -/
theorem sortByPrice_ne_nil {l : List OfferRow} (h : l ≠ []) : sortByPrice l ≠ [] := by
  intro h0
  apply h
  have hlen := (List.perm_insertionSort priceLe l).length_eq
  rw [show sortByPrice l = List.insertionSort priceLe l from rfl] at h0
  rw [h0] at hlen
  exact List.eq_nil_of_length_eq_zero (by simpa using hlen.symm)

/-- Membership in the sorted filtered curve comes from the table. -/
theorem mem_of_mem_sorted_curve {df : List OfferRow} {date : String} {period : Int}
    {r : OfferRow} (hr : r ∈ sortByPrice (filterDatePeriod df date period)) : r ∈ df :=
  (List.mem_filter.mp
    ((List.perm_insertionSort priceLe (filterDatePeriod df date period)).mem_iff.mp hr)).1

/-- Counterexample data for C6: a syntactically well-formed merit-order
table holding a negative offer volume. -/
def negVolData : List OfferRow :=
  [⟨"2023-01-01", 1, 0, 5⟩, ⟨"2023-01-01", 1, 1, -3⟩]

/-- Counterexample for C6 as stated: on a curve containing a negative
volume (which the data model's `number (MW)` volume type permits), the
running cumulative volume of the engine is NOT monotonically
non-decreasing — it steps from 5 down to 2. -/
theorem cumulative_volume_monotone_cex :
    ¬ (cumsum 0 (sortByPrice (filterDatePeriod negVolData "2023-01-01" 1))).Pairwise
        (fun a b => a.2 ≤ b.2) := by decide

/-- Claim C6 (amended): for every merit-order curve drawn from a table
whose offer volumes are non-negative — as the bounds table and the
cleaner guarantee for cleaned merit data, volume lying in [0, 2000] —
the running cumulative volume along the price-sorted curve is
monotonically non-decreasing, and its final value equals the sum of all
offer volumes in the curve. -/
theorem cumulative_volume_monotone_of_nonneg (df : List OfferRow) (date : String)
    (period : Int) (h : ∀ r ∈ df, 0 ≤ r.volume) :
    (cumsum 0 (sortByPrice (filterDatePeriod df date period))).Pairwise
      (fun a b => a.2 ≤ b.2) ∧
    ((cumsum 0 (sortByPrice (filterDatePeriod df date period))).getLastD
        (⟨"", 0, 0, 0⟩, 0)).2 = sumVol (filterDatePeriod df date period) := by
  have hmem : ∀ r ∈ sortByPrice (filterDatePeriod df date period), 0 ≤ r.volume :=
    fun r hr => h r (mem_of_mem_sorted_curve hr)
  constructor
  · exact cumsum_mono 0 _ hmem
  · by_cases hfe : filterDatePeriod df date period = []
    · rw [hfe]; rfl
    · rw [cumsum_getLastD 0 _ _ (sortByPrice_ne_nil hfe), zero_add]
      exact List.Perm.sum_eq
        ((List.perm_insertionSort priceLe (filterDatePeriod df date period)).map
          OfferRow.volume)

/-- Witness for C6: the reference fixture has non-negative volumes; its
cumulative curve is non-decreasing and ends at the total volume. -/
theorem cumulative_volume_monotone_of_nonneg_witness :
    (cumsum 0 (sortByPrice (filterDatePeriod testData "2023-01-01" 1))).Pairwise
      (fun a b => a.2 ≤ b.2) ∧
    ((cumsum 0 (sortByPrice (filterDatePeriod testData "2023-01-01" 1))).getLastD
        (⟨"", 0, 0, 0⟩, 0)).2 = sumVol (filterDatePeriod testData "2023-01-01" 1) :=
  cumulative_volume_monotone_of_nonneg testData "2023-01-01" 1 (by decide)

/-- With strictly positive volumes, demanding exactly the remaining
total volume selects the last row of the curve: every earlier cumulative
value falls short and the final one meets it exactly. -/
theorem cumsum_total_first : ∀ (acc : Int) (l : List OfferRow) (d : OfferRow),
    l ≠ [] → (∀ r ∈ l, 0 < r.volume) →
    ((cumsum acc l).filter (fun x => decide (acc + sumVol l ≤ x.2))).head? =
      some (l.getLastD d, acc + sumVol l)
  | _, [], _, h, _ => absurd rfl h
  | acc, [x], d, _, _ => by
    simp [cumsum, sumVol]
  | acc, x :: y :: t, d, _, hp => by
    have hpos : 0 < sumVol (y :: t) :=
      sumVol_pos (y :: t) (by simp) (fun r hr => hp r (List.mem_cons_of_mem x hr))
    have ih := cumsum_total_first (acc + x.volume) (y :: t) x (by simp)
      (fun r hr => hp r (List.mem_cons_of_mem x hr))
    have hsum : acc + sumVol (x :: y :: t) = (acc + x.volume) + sumVol (y :: t) := by
      simp only [sumVol, List.map_cons, List.sum_cons]; ring
    have hskip : (decide (acc + sumVol (x :: y :: t) ≤ (x, acc + x.volume).2)) = false := by
      simp only [decide_eq_false_iff_not, not_le, hsum]
      linarith
    show ((List.filter (fun z => decide (acc + sumVol (x :: y :: t) ≤ z.2))
        ((x, acc + x.volume) :: cumsum (acc + x.volume) (y :: t))).head?) =
      some ((y :: t).getLastD x, acc + sumVol (x :: y :: t))
    rw [List.filter_cons_of_neg (by simpa using hskip), hsum]
    exact ih

/-- Counterexample data for C8: two offers, the highest-priced one with
volume 0 — a volume inside the system's own [0, 2000] bound. -/
def zeroVolData : List OfferRow :=
  [⟨"2023-01-01", 1, 1, 5⟩, ⟨"2023-01-01", 1, 2, 0⟩]

/-- Counterexample for C8 as stated: on a non-empty curve whose total
volume is 5 and whose highest offered price is 2, demanding exactly the
total volume returns price 1, not the highest offered price — the
zero-volume top offer never becomes the first row whose cumulative
volume reaches the demand. -/
theorem clearing_price_at_total_volume_cex :
    sumVol (filterDatePeriod zeroVolData "2023-01-01" 1) = 5 ∧
    highestPrice (filterDatePeriod zeroVolData "2023-01-01" 1) = 2 ∧
    calculate_clearing_price zeroVolData "2023-01-01" 1 5 = Except.ok 1 ∧
    (1 : Int) ≠ 2 := by decide

/-- Claim C8 (amended): for every non-empty merit-order curve all of
whose offer volumes are strictly positive, calling the engine with
demand equal to the total available volume returns the highest offered
price of the curve. -/
theorem clearing_price_at_total_volume (df : List OfferRow) (date : String)
    (period : Int) (hne : filterDatePeriod df date period ≠ [])
    (hpos : ∀ r ∈ filterDatePeriod df date period, 0 < r.volume) :
    calculate_clearing_price df date period
        (sumVol (filterDatePeriod df date period)) =
      Except.ok (highestPrice (filterDatePeriod df date period)) := by
  have hperm := List.perm_insertionSort priceLe (filterDatePeriod df date period)
  have hsne : sortByPrice (filterDatePeriod df date period) ≠ [] :=
    sortByPrice_ne_nil hne
  have hspos : ∀ r ∈ sortByPrice (filterDatePeriod df date period), 0 < r.volume :=
    fun r hr => hpos r (hperm.mem_iff.mp hr)
  have hsum : sumVol (sortByPrice (filterDatePeriod df date period)) =
      sumVol (filterDatePeriod df date period) :=
    List.Perm.sum_eq (hperm.map OfferRow.volume)
  have hfirst := cumsum_total_first 0 (sortByPrice (filterDatePeriod df date period))
    ⟨"", 0, 0, 0⟩ hsne hspos
  simp only [zero_add, hsum] at hfirst
  unfold calculate_clearing_price
  rw [hfirst]
  rfl

/-- Witness for C8: on the reference fixture (all volumes positive,
total 1500) the engine returns the highest offered price, 200. -/
theorem clearing_price_at_total_volume_witness :
    calculate_clearing_price testData "2023-01-01" 1
        (sumVol (filterDatePeriod testData "2023-01-01" 1)) =
      Except.ok (highestPrice (filterDatePeriod testData "2023-01-01" 1)) :=
  clearing_price_at_total_volume testData "2023-01-01" 1 (by decide) (by decide)

/-! ### Claim C5: bound-kind inference -/

/-- Counterexample for C5 as stated: the column name
"Total Offer Capacity At Specified Offer Price (MW)" also contains the
substring "price", which is tested first, so the code classifies it
under the price bound, not the volume bound. -/
theorem bound_kind_capacity_column_cex :
    boundTypeFor "Total Offer Capacity At Specified Offer Price (MW)" =
      some BoundType.price ∧
    boundTypeFor "Total Offer Capacity At Specified Offer Price (MW)" ≠
      some BoundType.volume := by decide

/-- Claim C5 (amended): the bound kind is chosen by case-insensitive
substring match on the column name in the priority order price, then
volume/capacity, then period, then demand, then tcl, with no match
meaning no domain check; in particular the column
"Total Offer Capacity At Specified Offer Price (MW)" is classified
under the PRICE bound, because its "price" substring is matched before
"capacity" is ever consulted. -/
theorem bound_kind_priority :
    (∀ col : String, hasSubLower col "price" = true →
      boundTypeFor col = some BoundType.price) ∧
    (∀ col : String, hasSubLower col "price" = false →
      (hasSubLower col "volume" || hasSubLower col "capacity") = true →
      boundTypeFor col = some BoundType.volume) ∧
    (∀ col : String, hasSubLower col "price" = false →
      (hasSubLower col "volume" || hasSubLower col "capacity") = false →
      hasSubLower col "period" = true →
      boundTypeFor col = some BoundType.period) ∧
    (∀ col : String, hasSubLower col "price" = false →
      (hasSubLower col "volume" || hasSubLower col "capacity") = false →
      hasSubLower col "period" = false → hasSubLower col "demand" = true →
      boundTypeFor col = some BoundType.demand) ∧
    (∀ col : String, hasSubLower col "price" = false →
      (hasSubLower col "volume" || hasSubLower col "capacity") = false →
      hasSubLower col "period" = false → hasSubLower col "demand" = false →
      hasSubLower col "tcl" = true → boundTypeFor col = some BoundType.tcl) ∧
    (∀ col : String, hasSubLower col "price" = false →
      (hasSubLower col "volume" || hasSubLower col "capacity") = false →
      hasSubLower col "period" = false → hasSubLower col "demand" = false →
      hasSubLower col "tcl" = false → boundTypeFor col = none) ∧
    boundTypeFor "Total Offer Capacity At Specified Offer Price (MW)" =
      some BoundType.price := by
  refine ⟨?_, ?_, ?_, ?_, ?_, ?_, by decide⟩
  · intro col h1; simp [boundTypeFor, h1]
  · intro col h1 h2; simp [boundTypeFor, h1, h2]
  · intro col h1 h2 h3; simp [boundTypeFor, h1, h2, h3]
  · intro col h1 h2 h3 h4; simp [boundTypeFor, h1, h2, h3, h4]
  · intro col h1 h2 h3 h4 h5; simp [boundTypeFor, h1, h2, h3, h4, h5]
  · intro col h1 h2 h3 h4 h5; simp [boundTypeFor, h1, h2, h3, h4, h5]

/-- Witness for C5: the priority chain applied to concrete column names
of the repository's configuration. -/
theorem bound_kind_priority_witness :
    boundTypeFor "Lowest to Highest Offer Price ($/MWh)" = some BoundType.price ∧
    boundTypeFor "DEMAND (MW)" = some BoundType.demand :=
  ⟨bound_kind_priority.1 "Lowest to Highest Offer Price ($/MWh)" (by decide),
   bound_kind_priority.2.2.2.1 "DEMAND (MW)" (by decide) (by decide)
     (by decide) (by decide)⟩

/-! ### Claims C4 and C10: the validation report -/

/-- A one-column, one-row table whose "price" value 6000 lies outside
the price bound [-5000, 5000]. -/
def priceVioData : DataFrame := ⟨["price"], [[Cell.num 6000]]⟩

/-- A well-formed table: date in range, numeric value in bounds, no
nulls, no duplicates. -/
def okData : DataFrame :=
  ⟨["Date", "price"], [[Cell.str "2023-01-15", Cell.num 100]]⟩

/-- Claim C4, evaluated on the code at the failing input: on a table
whose only issue is a domain violation (price 6000 against bound
[-5000, 5000]), `validate_dataset` records the violation in
`domain_violations` yet leaves `issues_found` false, because the
domain-violation branch never sets the flag; on a fully clean table the
report correctly shows no issues. -/
theorem validator_domain_violation_unflagged :
    (validate_dataset priceVioData [] [] ["price"] none none).map
        (fun r => (r.domain_violations.map ViolationEntry.col,
          r.domain_violations.map ViolationEntry.count, r.issues_found)) =
      some (["price"], [1], false) ∧
    (validate_dataset okData ["Date", "price"] ["Date"] ["price"] none
        (some ("2023-01-01", "2023-01-31"))).map
        (fun r => (r.date_violations.map ViolationEntry.col,
          r.domain_violations.map ViolationEntry.col, r.issues_found)) =
      some ([], [], false) := by
  refine ⟨by decide, by decide⟩

/-- A column selection that is non-empty forces a non-empty row list. -/
theorem rows_pos_of_colVals_ne_nil (df : DataFrame) (c : String)
    (h : df.colVals c ≠ []) : 0 < df.rows.length := by
  unfold DataFrame.colVals at h
  cases hidx : df.cols.findIdx? (fun s => s == c) with
  | none => rw [hidx] at h; exact absurd rfl h
  | some i =>
    rw [hidx] at h
    cases hrows : df.rows with
    | nil => rw [hrows] at h; exact absurd rfl h
    | cons x xs => simp

/-- A positive date-violation count can only come from a non-empty
table. -/
theorem dateViolationCount_pos (df : DataFrame) (c : String) (sd ed : CalDate)
    (h : 0 < dateViolationCount df c sd ed) : 0 < df.rows.length := by
  apply rows_pos_of_colVals_ne_nil df c
  intro h0
  unfold dateViolationCount at h
  rw [h0] at h
  simp at h

/-- A positive domain-violation count can only come from a non-empty
table. -/
theorem domainViolationCount_pos (df : DataFrame) (c : String) (be : BoundsEntry)
    (h : 0 < domainViolationCount df c be) : 0 < df.rows.length := by
  apply rows_pos_of_colVals_ne_nil df c
  intro h0
  unfold domainViolationCount at h
  rw [h0] at h
  simp at h

/-- Any recorded date-violation entry implies a non-empty table. -/
theorem mem_dateViolationsReport_rows_pos {df : DataFrame} {dcs : List String}
    {sd ed : CalDate} {e : ViolationEntry}
    (he : e ∈ dateViolationsReport df dcs sd ed) : 0 < df.rows.length := by
  unfold dateViolationsReport at he
  rcases List.mem_filterMap.mp he with ⟨c, -, hsome⟩
  split at hsome
  · exact dateViolationCount_pos df c sd ed (by assumption)
  · cases hsome

/-- Any recorded domain-violation entry implies a non-empty table. -/
theorem mem_domainViolationsReport_rows_pos {df : DataFrame}
    {ncs : List String} {bnds : List (BoundType × BoundsEntry)}
    {e : ViolationEntry} (he : e ∈ domainViolationsReport df ncs bnds) :
    0 < df.rows.length := by
  unfold domainViolationsReport at he
  rcases List.mem_filterMap.mp he with ⟨c, -, hsome⟩
  split at hsome
  · split at hsome
    · split at hsome
      · exact domainViolationCount_pos df c _ (by assumption)
      · cases hsome
    · cases hsome
  · cases hsome


/-- Claim C10: the validator's `violation_percentage` computations never
divide by zero — whenever `validate_dataset` returns a report carrying a
date-violation or domain-violation entry (the only places a percentage
`count / len(df) * 100` is computed), the table has at least one row. -/
theorem validator_percentages_never_divide_by_zero :
    ∀ (df : DataFrame) (ec dc nc : List String)
      (bc : Option (List (BoundType × BoundsEntry)))
      (dr : Option (String × String)) (res : ValidationResults),
      validate_dataset df ec dc nc bc dr = some res →
      (res.date_violations ≠ [] ∨ res.domain_violations ≠ []) →
      0 < df.rows.length := by
  have hdom : ∀ res : ValidationResults,
      res.domain_violations ≠ [] →
      ∀ (df : DataFrame) (nc : List String)
        (bnds : List (BoundType × BoundsEntry)),
        res.domain_violations = domainViolationsReport df nc bnds →
        0 < df.rows.length := by
    intro res hne df nc bnds heq
    rw [heq] at hne
    rcases List.exists_mem_of_ne_nil _ hne with ⟨e, he⟩
    exact mem_domainViolationsReport_rows_pos he
  intro df ec dc nc bc dr res h hne
  unfold validate_dataset at h
  cases dc with
  | nil =>
    rw [Option.some.injEq] at h
    rcases hne with hd | hd
    · rw [← h] at hd; exact absurd rfl hd
    · exact hdom res hd df nc (bc.getD ENERGY_MARKET_BOUNDS) (by rw [← h])
  | cons c0 cs =>
    cases dr with
    | none =>
      rw [Option.some.injEq] at h
      rcases hne with hd | hd
      · rw [← h] at hd; exact absurd rfl hd
      · exact hdom res hd df nc (bc.getD ENERGY_MARKET_BOUNDS) (by rw [← h])
    | some pr =>
      rcases pr with ⟨s0, s1⟩
      dsimp only at h
      cases hp0 : parseDateString s0 with
      | none => rw [hp0] at h; cases h
      | some sd =>
        cases hp1 : parseDateString s1 with
        | none => rw [hp0, hp1] at h; cases h
        | some ed =>
          rw [hp0, hp1, Option.some.injEq] at h
          rcases hne with hd | hd
          · rw [← h] at hd
            rcases List.exists_mem_of_ne_nil _ hd with ⟨e, he⟩
            exact mem_dateViolationsReport_rows_pos he
          · exact hdom res hd df nc (bc.getD ENERGY_MARKET_BOUNDS) (by rw [← h])

/-- Witness for C10: a validator call that records a domain violation on
the one-row table `priceVioData`; the theorem applied to it yields the
positive row count. -/
theorem validator_percentages_never_divide_by_zero_witness :
    0 < priceVioData.rows.length :=
  validator_percentages_never_divide_by_zero priceVioData [] [] ["price"] none none
    { missing_columns := [], missing_values := [], data_types := [],
      date_violations := [],
      domain_violations :=
        [⟨"price", 1, ((1 : Nat) : Rat) / ((1 : Nat) : Rat) * 100⟩],
      duplicates := 0, issues_found := false }
    (by rfl) (Or.inr (by simp))

/-! ### Claim C9: cleaning is idempotent -/

/-- Everything `clean_market_data` guarantees about a surviving row: a
converted January-2023 timestamp with a valid day, a period in [1, 48],
and the kind-specific numeric bounds. -/
def CleanInv (dt : DatasetType) (r : MarketRow) : Prop :=
  (∃ d : CalDate, r.date = DateVal.ts d ∧ 1 ≤ d.day ∧ d.day ≤ 31 ∧
    d.year = 2023 ∧ d.month = 1) ∧
  1 ≤ r.period ∧ r.period ≤ 48 ∧
  (match dt with
   | .merit =>
     (energyBound .price).min ≤ r.price ∧ r.price ≤ (energyBound .price).max ∧
     (energyBound .volume).min ≤ r.vol ∧ r.vol ≤ (energyBound .volume).max
   | .usep =>
     (energyBound .price).min ≤ r.price ∧ r.price ≤ (energyBound .price).max ∧
     (energyBound .demand).min ≤ r.vol ∧ r.vol ≤ (energyBound .demand).max)

/-- Mapping a function that fixes every member of a list is the
identity. -/
theorem map_self_of_mem {α : Type} (l : List α) (f : α → α)
    (h : ∀ a ∈ l, f a = a) : l.map f = l := by
  induction l with
  | nil => rfl
  | cons x xs ih =>
    rw [List.map_cons, h x (List.mem_cons_self x xs),
      ih (fun a ha => h a (List.mem_cons_of_mem x ha))]

/-- Every row surviving `clean_market_data` satisfies `CleanInv`. -/
theorem mem_clean_inv (df : List MarketRow) (dt : DatasetType) (r : MarketRow)
    (h : r ∈ clean_market_data df dt) : CleanInv dt r := by
  cases dt <;>
  · unfold clean_market_data at h
    rcases List.mem_filter.mp h with ⟨h4, hp5⟩
    rcases List.mem_filter.mp h4 with ⟨h3, hp4⟩
    rcases List.mem_filter.mp h3 with ⟨h2, hp3⟩
    rcases List.mem_map.mp h2 with ⟨r0, hr0, hconv⟩
    rcases List.mem_filter.mp hr0 with ⟨-, hp1⟩
    unfold is_valid_date at hp1
    cases hpm : parseMixed r0.date with
    | none => rw [hpm] at hp1; cases hp1
    | some d =>
      rw [hpm] at hp1
      simp only [Bool.and_eq_true, decide_eq_true_eq] at hp1
      unfold convertDate at hconv
      rw [hpm] at hconv
      subst hconv
      simp only [inJan2023, Bool.and_eq_true, decide_eq_true_eq] at hp3
      simp only [Bool.and_eq_true, decide_eq_true_eq] at hp4 hp5
      exact ⟨⟨d, rfl, hp1.1, hp1.2, hp3.1, hp3.2⟩, hp4.1, hp4.2,
        hp5.1.1.1, hp5.1.1.2, hp5.1.2, hp5.2⟩

/-- Cleaning a table every row of which already satisfies `CleanInv` is
the identity. -/
theorem clean_eq_self (dt : DatasetType) (L : List MarketRow)
    (hL : ∀ r ∈ L, CleanInv dt r) : clean_market_data L dt = L := by
  have h1 : ∀ r ∈ L, is_valid_date r.date = true := by
    intro r hr
    rcases (hL r hr).1 with ⟨d, hdate, hlo, hhi, -, -⟩
    unfold is_valid_date
    rw [hdate]
    simp [parseMixed, hlo, hhi]
  have h2 : ∀ r ∈ L, convertDate r = r := by
    intro r hr
    rcases (hL r hr).1 with ⟨d, hdate, -⟩
    unfold convertDate
    rw [hdate]
    show MarketRow.mk (DateVal.ts d) r.period r.price r.vol r.extra = r
    rw [← hdate]
  have h3 : ∀ r ∈ L, inJan2023 r.date = true := by
    intro r hr
    rcases (hL r hr).1 with ⟨d, hdate, -, -, hy, hm⟩
    rw [hdate]
    simp [inJan2023, hy, hm]
  have h4 : ∀ r ∈ L, (decide (1 ≤ r.period) && decide (r.period ≤ 48)) = true := by
    intro r hr
    rcases hL r hr with ⟨-, hq1, hq2, -⟩
    simp [hq1, hq2]
  cases dt with
  | merit =>
    have h5 : ∀ r ∈ L,
        (decide ((energyBound .price).min ≤ r.price) &&
         decide (r.price ≤ (energyBound .price).max) &&
         decide ((energyBound .volume).min ≤ r.vol) &&
         decide (r.vol ≤ (energyBound .volume).max)) = true := by
      intro r hr
      rcases hL r hr with ⟨-, -, -, hb1, hb2, hb3, hb4⟩
      simp [hb1, hb2, hb3, hb4]
    unfold clean_market_data
    dsimp only
    rw [List.filter_eq_self.mpr h1, map_self_of_mem L convertDate h2,
      List.filter_eq_self.mpr h3, List.filter_eq_self.mpr h4,
      List.filter_eq_self.mpr h5]
  | usep =>
    have h5 : ∀ r ∈ L,
        (decide ((energyBound .price).min ≤ r.price) &&
         decide (r.price ≤ (energyBound .price).max) &&
         decide ((energyBound .demand).min ≤ r.vol) &&
         decide (r.vol ≤ (energyBound .demand).max)) = true := by
      intro r hr
      rcases hL r hr with ⟨-, -, -, hb1, hb2, hb3, hb4⟩
      simp [hb1, hb2, hb3, hb4]
    unfold clean_market_data
    dsimp only
    rw [List.filter_eq_self.mpr h1, map_self_of_mem L convertDate h2,
      List.filter_eq_self.mpr h3, List.filter_eq_self.mpr h4,
      List.filter_eq_self.mpr h5]

/-- Claim C9: for every input table and dataset kind, cleaning is
idempotent — applying `clean_market_data` to an already-cleaned table
removes no further rows and changes nothing:
`clean(clean(t, k), k) = clean(t, k)`. -/
theorem clean_market_data_idem (df : List MarketRow) (dt : DatasetType) :
    clean_market_data (clean_market_data df dt) dt = clean_market_data df dt :=
  clean_eq_self dt (clean_market_data df dt)
    (fun r hr => mem_clean_inv df dt r hr)
